import Mathlib

/-!
Shallow embedding of the scanner library in `src/qr-scanner.ts` and proofs
about its camera acquisition, decode-engine protocol, retry policy, scan
loop and lifecycle state machine.

Conventions of the embedding:
* JavaScript strings are Lean `String`s; regular-expression tests against
  fixed alternations are modelled as case-insensitive substring tests.
* Asynchronous environment calls (`getUserMedia`, worker responses, the
  decode engine) are passed in as explicit function arguments or event
  lists, so every definition mirrors one control-flow path of the source.
* JavaScript truthiness of an optional number (`undefined` and `0` are
  falsy) is modelled by `truthyNum`.
-/

namespace QrScanner

/-- Boolean test that `n` is a prefix of `h` (character lists). -/
def isPrefixB : List Char → List Char → Bool
  | [], _ => true
  | _ :: _, [] => false
  | a :: as, b :: bs => a == b && isPrefixB as bs

/-- Boolean test that `n` occurs contiguously inside `h` (character lists). -/
def isInfixB (n : List Char) : List Char → Bool
  | [] => n.isEmpty
  | c :: t => isPrefixB n (c :: t) || isInfixB n t

/-- `haystack.includes(needle)` on JavaScript strings (case sensitive). -/
def strIncludes (haystack needle : String) : Bool :=
  isInfixB needle.toList haystack.toList

/-- Case-insensitive substring test, modelling `/needle/i.test(haystack)`
for a literal alternative `needle`. -/
def containsCI (haystack needle : String) : Bool :=
  isInfixB (needle.toList.map Char.toLower) (haystack.toList.map Char.toLower)

/-- `/a1|a2|.../i.test(label)`: some alternative occurs in `label`,
case-insensitively. -/
def regexTestAnyCI (label : String) (alts : List String) : Bool :=
  alts.any (fun a => containsCI label a)

/-- `QrScanner.NO_QR_CODE_FOUND` from the source. -/
def NO_QR_CODE_FOUND : String := "No QR code found"

/-- The message of the error thrown by `_getCameraStream` when no stream
can be negotiated (and by the modelled `start` when acquisition fails). -/
def CAMERA_NOT_FOUND : String := "Camera not found."

/-! ### Camera acquisition (`_getCameraStream`, `_getFacingMode`) -/

/-- The subset of a `MediaTrackConstraints` object that `_getCameraStream`
ever puts in a constraint set: an optional `width: \x7b min \x7d` bound and an
optional `exact` facing mode or device id. -/
structure MediaTrackConstraints where
  minWidth : Option Nat
  facingMode : Option String
  deviceId : Option String
deriving DecidableEq

/-- A negotiated stream, reduced to what the source inspects: an id and
the label of its first video track (`none` when there is no video track). -/
structure StreamInfo where
  id : Nat
  trackLabel : Option String
deriving DecidableEq

/-- `/^(environment|user)$/.test(pref)`: the preference is a facing mode
rather than a device id. -/
def isFacingModePreference (pref : String) : Bool :=
  pref == "environment" || pref == "user"

/-- The `constraintsWithoutCamera` list of `_getCameraStream`: resolution
tiers min-width 1024, min-width 768, unconstrained. -/
def constraintsWithoutCamera : List MediaTrackConstraints :=
  [⟨some 1024, none, none⟩, ⟨some 768, none, none⟩, ⟨none, none, none⟩]

/-- Adds the `[preferenceType]: \x7b exact: preferredCamera \x7d` entry to a
resolution-tier constraint set. -/
def withCamera (pref : String) (c : MediaTrackConstraints) : MediaTrackConstraints :=
  if isFacingModePreference pref then { c with facingMode := some pref }
  else { c with deviceId := some pref }

/-- The full ordered list of constraint sets `_getCameraStream` attempts:
`[...constraintsWithCamera, ...constraintsWithoutCamera]`. -/
def attemptedConstraints (pref : String) : List MediaTrackConstraints :=
  constraintsWithoutCamera.map (withCamera pref) ++ constraintsWithoutCamera

/-- `_getFacingMode`: match the first video track's label against
`/rear|back|environment/i`, then `/front|user|face/i`, else unknown. -/
def _getFacingMode (si : StreamInfo) : Option String :=
  match si.trackLabel with
  | none => none
  | some label =>
    if regexTestAnyCI label ["rear", "back", "environment"] then some "environment"
    else if regexTestAnyCI label ["front", "user", "face"] then some "user"
    else none

/-- The facing-mode expression of `_getCameraStream`'s loop body: the label
match if any, else the preference when the fulfilled constraint set carried
a `facingMode` entry, else the opposite of a specific requested side,
defaulting to `environment`. -/
def inferFacingMode (pref : String) (c : MediaTrackConstraints) (si : StreamInfo) : String :=
  match _getFacingMode si with
  | some f => f
  | none =>
    if c.facingMode.isSome then pref
    else if pref == "environment" then "user"
    else "environment"

/-- The `for`/`try` loop of `_getCameraStream`: attempt `getUserMedia` on
each constraint set in order, swallowing failures; the first success wins. -/
def tryConstraints (pref : String) (gum : MediaTrackConstraints → Option StreamInfo) :
    List MediaTrackConstraints → Option (StreamInfo × String)
  | [] => none
  | c :: rest =>
    match gum c with
    | some si => some (si, inferFacingMode pref c si)
    | none => tryConstraints pref gum rest

/-- `_getCameraStream`, with the environment's `navigator.mediaDevices`
presence and `getUserMedia` outcome passed in explicitly. -/
def _getCameraStream (hasMediaDevices : Bool) (pref : String)
    (gum : MediaTrackConstraints → Option StreamInfo) :
    Except String (StreamInfo × String) :=
  if !hasMediaDevices then .error CAMERA_NOT_FOUND
  else
    match tryConstraints pref gum (attemptedConstraints pref) with
    | some r => .ok r
    | none => .error CAMERA_NOT_FOUND

/-! ### Worker decode request protocol (`scanImage`, worker branch) -/

/-- How the promise inside `scanImage`'s worker branch settles. -/
inductive Settled where
  | resolved (payload : String)
  | rejected (message : String)
deriving DecidableEq

/-- The mutable context of one worker decode request: whether the
`message`/`error` listeners are registered, whether the timeout timer is
still pending, how the promise settled, and how many times `resolve` or
`reject` was invoked. -/
structure ReqState where
  listeners : Bool
  timerActive : Bool
  settled : Option Settled
  settleCalls : Nat
deriving DecidableEq

/-- State right after `addEventListener` twice and `setTimeout`. -/
def initReq : ReqState := ⟨true, true, none, 0⟩

/-- Events the environment can deliver to the request: a worker message,
a worker `error` event (`none` models a falsy error value), or the
timeout timer firing. -/
inductive WEvent where
  | message (msgType : String) (data : Option String)
  | workerError (msg : Option String)
  | timerFire
deriving DecidableEq

/-- The `onMessage` handler body: ignore messages whose type is not
`qrResult`; otherwise deregister both listeners, clear the timer, and
resolve with the data or reject with `NO_QR_CODE_FOUND` on `null`. -/
def onMessage (s : ReqState) (msgType : String) (data : Option String) : ReqState :=
  if msgType != "qrResult" then s
  else
    { listeners := false, timerActive := false,
      settled := some (match data with
        | some d => .resolved d
        | none => .rejected NO_QR_CODE_FOUND),
      settleCalls := s.settleCalls + 1 }

/-- The `onError` handler body: deregister both listeners, clear the
timer, and reject with `Scanner error: ` plus the message (`Unknown
Error` for a falsy error). -/
def onError (s : ReqState) (msg : Option String) : ReqState :=
  { listeners := false, timerActive := false,
    settled := some (.rejected ("Scanner error: " ++ msg.getD "Unknown Error")),
    settleCalls := s.settleCalls + 1 }

/-- Deliver one event: messages and error events reach the handlers only
while the listeners are registered; the timer callback
`() => onError('timeout')` runs only while the timeout is pending. -/
def stepReq (s : ReqState) : WEvent → ReqState
  | .message t d => if s.listeners then onMessage s t d else s
  | .workerError m => if s.listeners then onError s m else s
  | .timerFire => if s.timerActive then onError s (some "timeout") else s

/-- Run one worker decode request against a sequence of delivered events. -/
def runReq (es : List WEvent) : ReqState :=
  es.foldl stepReq initReq

/-- The default `_onDecodeError` handler: returns the message it logs, or
`none` when it returns without logging (exactly on `NO_QR_CODE_FOUND`). -/
def _onDecodeError (error : String) : Option String :=
  if error == NO_QR_CODE_FOUND then none else some error

/-! ### Retry policy of `scanImage`'s catch block -/

/-- The `QrScanner.ScanRegion` interface: all fields optional. -/
structure ScanRegionJs where
  x : Option Nat
  y : Option Nat
  width : Option Nat
  height : Option Nat
  downScaledWidth : Option Nat
  downScaledHeight : Option Nat
deriving DecidableEq

/-- `scanImage`'s region/retry control flow, abstracting one decode
attempt (engine setup, rasterization and the worker round trip) as
`decode`. Returns the settled outcome and the ordered list of regions a
decode was attempted with. On failure, the catch block rethrows unless a
region was supplied and `alsoTryWithoutScanRegion` holds, in which case it
returns `scanImage(input, null, engine, canvas, disallowCanvasResizing)`
— whose own failure propagates because its region is `null`. -/
def scanImageFlow (decode : Option ScanRegionJs → Except String String)
    (scanRegion : Option ScanRegionJs) (alsoTryWithoutScanRegion : Bool) :
    Except String String × List (Option ScanRegionJs) :=
  match decode scanRegion with
  | .ok v => (.ok v, [scanRegion])
  | .error e =>
    if scanRegion.isNone || !alsoTryWithoutScanRegion then (.error e, [scanRegion])
    else
      match decode none with
      | .ok v => (.ok v, [scanRegion, none])
      | .error e' => (.error e', [scanRegion, none])

/-! ### The scan loop (`_scanFrame`) -/

/-- The observable effects of one `requestAnimationFrame` callback of
`_scanFrame`, given the decode outcome. -/
structure IterOutcome where
  decodeCb : Option String
  errorCb : Option String
  engineReplaced : Bool
  rescheduled : Bool
deriving DecidableEq

/-- The guard of `_scanFrame`: a new animation frame is requested only
while the scanner is active and the video is neither paused nor ended. -/
def scanFrameSchedules (active videoPaused videoEnded : Bool) : Bool :=
  active && !videoPaused && !videoEnded

/-- One `_scanFrame` animation-frame callback after the decode attempt
settled (the `readyState <= 1` reschedule path is not taken): on error,
return silently when no longer active, else replace the engine on a
`service unavailable` message and invoke the error callback; on success,
invoke the decode callback; finally call `_scanFrame()` again, which
schedules a next iteration only under its guard. -/
def scanFrameStep (active videoPaused videoEnded : Bool)
    (res : Except String String) : IterOutcome :=
  match res with
  | .ok r =>
    { decodeCb := some r, errorCb := none, engineReplaced := false,
      rescheduled := scanFrameSchedules active videoPaused videoEnded }
  | .error e =>
    if !active then
      { decodeCb := none, errorCb := none, engineReplaced := false, rescheduled := false }
    else
      { decodeCb := none, errorCb := some e,
        engineReplaced := strIncludes e "service unavailable",
        rescheduled := scanFrameSchedules active videoPaused videoEnded }

/-! ### Canvas rasterization (`_drawToCanvas`) -/

/-- JavaScript truthiness of an optional number: `undefined` and `0` are
falsy. -/
def truthyNum : Option Nat → Bool
  | some n => n != 0
  | none => false

/-- The geometry `_drawToCanvas` ends up passing to `drawImage`: source
sub-rectangle and final canvas dimensions. -/
structure DrawParams where
  srcX : Nat
  srcY : Nat
  srcW : Nat
  srcH : Nat
  canvasW : Nat
  canvasH : Nat
deriving DecidableEq

/-- `_drawToCanvas` on a source of dimensions `imgW × imgH` (for a video,
its `videoWidth`/`videoHeight`) and a canvas currently sized
`canvasW × canvasH`: region fields fall back under JavaScript truthiness,
canvas dimensions are updated from the downscale target (defaulting to the
region dimensions) unless resizing is disallowed. -/
def _drawToCanvas (imgW imgH : Nat) (scanRegion : Option ScanRegionJs)
    (canvasW canvasH : Nat) (disallowCanvasResizing : Bool) : DrawParams :=
  let scanRegionX := match scanRegion with
    | some r => if truthyNum r.x then r.x.getD 0 else 0
    | none => 0
  let scanRegionY := match scanRegion with
    | some r => if truthyNum r.y then r.y.getD 0 else 0
    | none => 0
  let scanRegionWidth := match scanRegion with
    | some r => if truthyNum r.width then r.width.getD 0 else imgW
    | none => imgW
  let scanRegionHeight := match scanRegion with
    | some r => if truthyNum r.height then r.height.getD 0 else imgH
    | none => imgH
  let canvasW' := if !disallowCanvasResizing then
      match scanRegion with
      | some r => if truthyNum r.downScaledWidth then r.downScaledWidth.getD 0
                  else scanRegionWidth
      | none => scanRegionWidth
    else canvasW
  let canvasH' := if !disallowCanvasResizing then
      match scanRegion with
      | some r => if truthyNum r.downScaledHeight then r.downScaledHeight.getD 0
                  else scanRegionHeight
      | none => scanRegionHeight
    else canvasH
  { srcX := scanRegionX, srcY := scanRegionY,
    srcW := scanRegionWidth, srcH := scanRegionHeight,
    canvasW := canvasW', canvasH := canvasH' }

/-! ### Lifecycle state machine (`start`, `pause`, `stop`, `destroy`,
`setCamera`, flash control)

The instance fields of `QrScanner` together with the video element state
the methods read and write. Streams are identified by a `Nat` id; the
environment's acquisition outcome is passed to `start` explicitly. The
model follows the sequential (non-interleaved) execution of each method;
`pause`'s 300ms suspension point is split into `pauseSync` (everything up
to the `await`) and `pauseDeferred` (the continuation after it), so that
a `start` happening inside the grace window is modelled by running `start`
between the two phases. -/

structure ScannerState where
  active : Bool
  paused : Bool
  flashOn : Bool
  destroyed : Bool
  stream : Option Nat
  videoPlaying : Bool
  mirrored : Bool
  torchApplied : Bool
  listenersAttached : Bool
  preferredCamera : String
deriving DecidableEq

/-- `_stopVideoStream` applied to `$video.srcObject` plus the
`srcObject = null` detach, guarded by `srcObject instanceof MediaStream`. -/
def stopStreamOnVideo (s : ScannerState) : ScannerState :=
  match s.stream with
  | some _ => { s with stream := none }
  | none => s

/-- `pause(stopStreamImmediately)` up to its only suspension point:
set `_paused`, return `true` at once when inactive, pause playback, and
either stop the stream now (immediate) or leave the release pending
(`none` result = promise not yet settled, timer scheduled). -/
def pauseSync (s : ScannerState) (stopStreamImmediately : Bool) :
    ScannerState × Option Bool :=
  let s1 : ScannerState := { s with paused := true }
  if !s1.active then (s1, some true)
  else
    let s2 : ScannerState := { s1 with videoPlaying := false }
    if stopStreamImmediately then (stopStreamOnVideo s2, some true)
    else (s2, none)

/-- The continuation of a non-immediate `pause` after the 300ms timer:
resolve `false` leaving the stream alone when a resume cleared `_paused`,
else release the stream and resolve `true`. -/
def pauseDeferred (s : ScannerState) : ScannerState × Bool :=
  if !s.paused then (s, false)
  else (stopStreamOnVideo s, true)

/-- `turnFlashOn`, with the environment's answer to `hasFlash` (and the
success of `applyConstraints`) passed as `hasTorch`. Returns the new state
and whether the call resolved (`false` = it threw). -/
def turnFlashOn (s : ScannerState) (hasTorch : Bool) : ScannerState × Bool :=
  if s.flashOn || s.destroyed then (s, true)
  else
    let s1 : ScannerState := { s with flashOn := true }
    if !s1.active || s1.paused then (s1, true)
    else if !hasTorch then ({ s1 with flashOn := false }, false)
    else ({ s1 with torchApplied := true }, true)

/-- `start()`, with the environment passed explicitly: `hidden` is
`document.hidden`, `acq` is `_getCameraStream`'s outcome (`some` = a
stream id and inferred facing mode, `none` = it threw), `newStreamHasTorch`
feeds the flash re-arm. Returns the new state and whether the returned
promise resolved or rejected. -/
def start (s : ScannerState) (hidden : Bool) (acq : Option (Nat × String))
    (newStreamHasTorch : Bool) : ScannerState × Except String Unit :=
  if (s.active && !s.paused) || s.destroyed then (s, .ok ())
  else
    let s1 : ScannerState := { s with active := true }
    if hidden then (s1, .ok ())
    else
      let s2 : ScannerState := { s1 with paused := false }
      if s2.stream.isSome then ({ s2 with videoPlaying := true }, .ok ())
      else
        match acq with
        | some (sid, facing) =>
          let s3 : ScannerState :=
            { s2 with stream := some sid, videoPlaying := true,
                      mirrored := facing == "user" }
          if s3.flashOn then
            (((turnFlashOn { s3 with flashOn := false } newStreamHasTorch)).1, .ok ())
          else (s3, .ok ())
        | none =>
          ({ s2 with active := false }, .error CAMERA_NOT_FOUND)

/-- `stop()`: the synchronous prefix of `pause()` (the un-awaited call)
followed by clearing `_active`. The deferred stream release, when `pause`
scheduled one, is `pauseDeferred` run on the later state. -/
def stop (s : ScannerState) : ScannerState :=
  { (pauseSync s false).1 with active := false }

/-- `destroy()`: detach listeners, mark destroyed, clear the flash flag,
then `stop()` (the `close` message to the worker has no state effect
here). -/
def destroy (s : ScannerState) : ScannerState :=
  stop { s with listenersAttached := false, destroyed := true, flashOn := false }

/-- The state once a `destroy()` has fully settled: `destroy` plus the
deferred stream release its `stop` scheduled (nothing can clear `_paused`
afterwards, so the timer always releases). -/
def destroySettled (s : ScannerState) : ScannerState :=
  (pauseDeferred (destroy s)).1

/-- `_restartVideoStream`: remember `_paused`, pause immediately, and
start again only when the stream was actually just released on a
previously unpaused, still-active scanner. -/
def _restartVideoStream (s : ScannerState) (hidden : Bool)
    (acq : Option (Nat × String)) (newStreamHasTorch : Bool) : ScannerState :=
  let wasPaused := s.paused
  let p := pauseSync s true
  let pausedRes := p.2.getD true
  if !pausedRes || wasPaused || !p.1.active then p.1
  else (start p.1 hidden acq newStreamHasTorch).1

/-- `setCamera`: no-op on an unchanged preference, else record it and
restart the stream. -/
def setCamera (s : ScannerState) (cam : String) (hidden : Bool)
    (acq : Option (Nat × String)) (newStreamHasTorch : Bool) : ScannerState :=
  if cam == s.preferredCamera then s
  else _restartVideoStream { s with preferredCamera := cam } hidden acq newStreamHasTorch

/-- `turnFlashOff`: no-op with the flash already off, else clear the flag
and force a stream restart. -/
def turnFlashOff (s : ScannerState) (hidden : Bool)
    (acq : Option (Nat × String)) (newStreamHasTorch : Bool) : ScannerState :=
  if !s.flashOn then s
  else _restartVideoStream { s with flashOn := false } hidden acq newStreamHasTorch

/-- `toggleFlash`. -/
def toggleFlash (s : ScannerState) (hasTorch : Bool) (hidden : Bool)
    (acq : Option (Nat × String)) (newStreamHasTorch : Bool) : ScannerState :=
  if s.flashOn then turnFlashOff s hidden acq newStreamHasTorch
  else (turnFlashOn s hasTorch).1

/-! ### Auxiliary definitions for the development -/

/-- Invariant of a worker decode request: the listeners and the timer are
registered exactly while the promise is unsettled, and `resolve`/`reject`
has been invoked exactly once when it is settled. -/
def ReqInv (s : ReqState) : Prop :=
  s.listeners = !s.settled.isSome ∧
  s.timerActive = !s.settled.isSome ∧
  s.settleCalls = (if s.settled.isSome then 1 else 0)

/-- A concrete running, unpaused scanner holding stream 1. -/
def sampleActive : ScannerState :=
  ⟨true, false, false, false, some 1, true, false, false, true, "environment"⟩

/-- A concrete running, unpaused scanner with the flash on. -/
def sampleFlashOn : ScannerState :=
  ⟨true, false, true, false, some 1, true, false, true, true, "environment"⟩

end QrScanner

open QrScanner

/-! ## Theorems -/

theorem tryConstraints_eq_none_iff (pref : String)
    (gum : MediaTrackConstraints → Option StreamInfo)
    (cs : List MediaTrackConstraints) :
    tryConstraints pref gum cs = none ↔ ∀ c ∈ cs, gum c = none := by
  induction cs with
  | nil => simp [tryConstraints]
  | cons c rest ih =>
    simp only [tryConstraints]
    cases h : gum c with
    | some si => simp [h]
    | none => simp [h, ih]

theorem tryConstraints_first (pref : String)
    (gum : MediaTrackConstraints → Option StreamInfo) (si : StreamInfo) :
    ∀ (l1 : List MediaTrackConstraints) (c : MediaTrackConstraints)
      (l2 : List MediaTrackConstraints),
      (∀ c' ∈ l1, gum c' = none) → gum c = some si →
      tryConstraints pref gum (l1 ++ c :: l2) =
        some (si, inferFacingMode pref c si)
  | [], c, l2, _, hc => by simp [tryConstraints, hc]
  | c' :: l1, c, l2, h1, hc => by
    have h' : gum c' = none := h1 c' (by simp)
    simp only [List.cons_append, tryConstraints, h']
    exact tryConstraints_first pref gum si l1 c l2 (fun x hx => h1 x (by simp [hx])) hc

theorem getCameraStream_first (pref : String)
    (gum : MediaTrackConstraints → Option StreamInfo)
    (l1 : List MediaTrackConstraints) (c : MediaTrackConstraints)
    (l2 : List MediaTrackConstraints) (si : StreamInfo)
    (hsplit : attemptedConstraints pref = l1 ++ c :: l2)
    (h1 : ∀ c' ∈ l1, gum c' = none) (hc : gum c = some si) :
    _getCameraStream true pref gum = .ok (si, inferFacingMode pref c si) := by
  simp only [_getCameraStream, hsplit]
  rw [tryConstraints_first pref gum si l1 c l2 h1 hc]
  simp

/-- C1: camera acquisition tries, in order, the resolution tiers (min
width 1024, min width 768, unconstrained) with the exact camera preference
attached, then the same tiers without any preference; individual failures
are swallowed, the first successful negotiation returns its stream, and
`Camera not found.` is raised if and only if media devices are absent or
every constraint set in the list fails. -/
theorem C1_camera_constraint_fallback (hasMD : Bool) (pref : String)
    (gum : MediaTrackConstraints → Option StreamInfo) :
    (_getCameraStream hasMD pref gum = .error CAMERA_NOT_FOUND ↔
      hasMD = false ∨ ∀ c ∈ attemptedConstraints pref, gum c = none) ∧
    (∀ (l1 : List MediaTrackConstraints) (c : MediaTrackConstraints)
        (l2 : List MediaTrackConstraints) (si : StreamInfo),
      hasMD = true →
      attemptedConstraints pref = l1 ++ c :: l2 →
      (∀ c' ∈ l1, gum c' = none) → gum c = some si →
      _getCameraStream hasMD pref gum = .ok (si, inferFacingMode pref c si)) ∧
    attemptedConstraints pref =
      [withCamera pref ⟨some 1024, none, none⟩,
       withCamera pref ⟨some 768, none, none⟩,
       withCamera pref ⟨none, none, none⟩,
       ⟨some 1024, none, none⟩, ⟨some 768, none, none⟩, ⟨none, none, none⟩] := by
  refine ⟨?_, ?_, rfl⟩
  · cases hasMD with
    | false => simp [_getCameraStream]
    | true =>
      cases h : tryConstraints pref gum (attemptedConstraints pref) with
      | some r =>
        have hne : ¬ ∀ c ∈ attemptedConstraints pref, gum c = none := by
          intro hall
          rw [← tryConstraints_eq_none_iff pref gum] at hall
          rw [h] at hall
          exact Option.noConfusion hall
        simp [_getCameraStream, h, hne]
      | none =>
        have hall := (tryConstraints_eq_none_iff pref gum (attemptedConstraints pref)).mp h
        constructor
        · intro _
          exact Or.inr hall
        · intro _
          simp [_getCameraStream, h]
  · intro l1 c l2 si hMD hsplit h1 hc
    subst hMD
    exact getCameraStream_first pref gum l1 c l2 si hsplit h1 hc

/-- Witness for C1: with a `getUserMedia` that only accepts the exact
facing-mode constraint at the 768 tier, the first tier's failure is
swallowed and the second tier's stream is returned. -/
theorem C1_camera_constraint_fallback_witness :
    _getCameraStream true "environment"
      (fun c => if c = ⟨some 768, some "environment", none⟩
        then some ⟨3, some "Back Camera"⟩ else none) =
      .ok (⟨3, some "Back Camera"⟩, "environment") := by
  have h := (C1_camera_constraint_fallback true "environment"
      (fun c => if c = ⟨some 768, some "environment", none⟩
        then some ⟨3, some "Back Camera"⟩ else none)).2.1
    [withCamera "environment" ⟨some 1024, none, none⟩]
    ⟨some 768, some "environment", none⟩
    [withCamera "environment" ⟨none, none, none⟩,
     ⟨some 1024, none, none⟩, ⟨some 768, none, none⟩, ⟨none, none, none⟩]
    ⟨3, some "Back Camera"⟩ rfl (by decide) (by decide) (by decide)
  have hfm : inferFacingMode "environment" ⟨some 768, some "environment", none⟩
      ⟨3, some "Back Camera"⟩ = "environment" := by decide
  rw [h, hfm]

/-- C6: the facing side of an acquired stream is the side matched from the
track label when it matches; otherwise the requested side when the
fulfilled constraint set carried a facing-mode entry; otherwise the
opposite of a requested specific side (default `environment`). In
particular, requesting `user` on a device with no front camera succeeds
through an unconstrained tier and is inferred as `environment`. -/
theorem C6_facing_mode_inference (pref : String) (c : MediaTrackConstraints)
    (si : StreamInfo) :
    (∀ (sid : Nat) (label : String),
      regexTestAnyCI label ["rear", "back", "environment"] = true →
      _getFacingMode ⟨sid, some label⟩ = some "environment") ∧
    (∀ (sid : Nat) (label : String),
      regexTestAnyCI label ["rear", "back", "environment"] = false →
      regexTestAnyCI label ["front", "user", "face"] = true →
      _getFacingMode ⟨sid, some label⟩ = some "user") ∧
    (_getFacingMode si = none → c.facingMode.isSome = true →
      inferFacingMode pref c si = pref) ∧
    (_getFacingMode si = none → c.facingMode = none →
      inferFacingMode pref c si =
        (if pref == "environment" then "user" else "environment")) ∧
    (∀ (gum : MediaTrackConstraints → Option StreamInfo) (si' : StreamInfo),
      (∀ cc : MediaTrackConstraints, cc.facingMode.isSome = true → gum cc = none) →
      gum ⟨some 1024, none, none⟩ = some si' →
      _getFacingMode si' = none →
      _getCameraStream true "user" gum = .ok (si', "environment")) := by
  refine ⟨?_, ?_, ?_, ?_, ?_⟩
  · intro sid label h
    simp [_getFacingMode, h]
  · intro sid label h1 h2
    simp [_getFacingMode, h1, h2]
  · intro h1 h2
    simp [inferFacingMode, h1, h2]
  · intro h1 h2
    simp [inferFacingMode, h1, h2]
  · intro gum si' hfail hok hlabel
    have h := getCameraStream_first "user" gum
      [withCamera "user" ⟨some 1024, none, none⟩,
       withCamera "user" ⟨some 768, none, none⟩,
       withCamera "user" ⟨none, none, none⟩]
      ⟨some 1024, none, none⟩
      [⟨some 768, none, none⟩, ⟨none, none, none⟩]
      si' rfl ?_ hok
    · rw [h]
      simp [inferFacingMode, hlabel]
    · intro c' hc'
      refine hfail c' ?_
      simp only [List.mem_cons, List.not_mem_nil, or_false] at hc'
      rcases hc' with h' | h' | h' <;> subst h' <;> rfl

/-- Witness for C6: a front-camera request on a device whose only camera
has an uninformative label succeeds on the unconstrained 1024 tier with
inferred facing side `environment`. -/
theorem C6_facing_mode_inference_witness :
    _getCameraStream true "user"
      (fun cc => if cc.facingMode.isSome then none
        else if cc.minWidth == some 1024 then some ⟨7, some "Camera 1"⟩ else none) =
      .ok (⟨7, some "Camera 1"⟩, "environment") := by
  refine (C6_facing_mode_inference "user" ⟨none, none, none⟩ ⟨0, none⟩).2.2.2.2
    (fun cc => if cc.facingMode.isSome then none
      else if cc.minWidth == some 1024 then some ⟨7, some "Camera 1"⟩ else none)
    ⟨7, some "Camera 1"⟩ ?_ (by decide) (by decide)
  intro cc h
  simp [h]

theorem stepReq_inv (s : ReqState) (e : WEvent) (h : ReqInv s) :
    ReqInv (stepReq s e) := by
  obtain ⟨li, ti, se, sc⟩ := s
  obtain ⟨h1, h2, h3⟩ := h
  cases se with
  | some o =>
    simp only [ReqInv] at h1 h2 h3
    simp only [Option.isSome_some, Bool.not_true, if_pos rfl] at h1 h2 h3
    subst h1
    subst h2
    subst h3
    cases e <;> simp [stepReq, ReqInv]
  | none =>
    simp only [ReqInv] at h1 h2 h3
    simp only [Option.isSome_none, Bool.not_false] at h1 h2
    simp only [Option.isSome_none, Bool.false_eq_true, if_false] at h3
    subst h1
    subst h2
    subst h3
    cases e with
    | message t d =>
      by_cases ht : t = "qrResult"
      · subst ht
        cases d <;> simp [stepReq, onMessage, ReqInv]
      · have hne : (t != "qrResult") = true := by simp [bne_iff_ne, ht]
        simp [stepReq, onMessage, hne, ReqInv]
    | workerError m => simp [stepReq, onError, ReqInv]
    | timerFire => simp [stepReq, onError, ReqInv]

theorem stepReq_settled_fixed (s : ReqState) (e : WEvent) (h : ReqInv s)
    (hs : s.settled.isSome = true) : stepReq s e = s := by
  obtain ⟨li, ti, se, sc⟩ := s
  obtain ⟨h1, h2, -⟩ := h
  simp only [ReqInv] at h1 h2
  simp only [hs, Bool.not_true] at h1 h2
  subst h1
  subst h2
  cases e <;> simp [stepReq]

theorem runReq_inv (es : List WEvent) : ReqInv (runReq es) := by
  have init : ReqInv initReq := ⟨rfl, rfl, rfl⟩
  have gen : ∀ (l : List WEvent) (s : ReqState), ReqInv s → ReqInv (l.foldl stepReq s) := by
    intro l
    induction l with
    | nil => intro s h; exact h
    | cons e t ih => intro s h; exact ih (stepReq s e) (stepReq_inv s e h)
  exact gen es initReq init

theorem foldl_settled_fixed (l : List WEvent) :
    ∀ (s : ReqState), ReqInv s → s.settled.isSome = true → l.foldl stepReq s = s := by
  induction l with
  | nil => intro s _ _; rfl
  | cons e t ih =>
    intro s h hs
    have he : stepReq s e = s := stepReq_settled_fixed s e h hs
    simp only [List.foldl_cons, he]
    exact ih s h hs

/-- C4: a worker decode request settles at most once — whichever of a
matching `qrResult` message, a worker error or the timer wins, both
listeners are removed and the timer is cleared at that point, so any
further events (in particular a late response) change nothing — and the
timer path settles the request as the `Scanner error: timeout`
rejection. -/
theorem C4_worker_request_settles_once (es : List WEvent) :
    (runReq es).settleCalls ≤ 1 ∧
    ((runReq es).settled.isSome = true →
      (runReq es).listeners = false ∧
      (runReq es).timerActive = false ∧
      ∀ more : List WEvent, runReq (es ++ more) = runReq es) ∧
    runReq [WEvent.timerFire] =
      ⟨false, false, some (.rejected "Scanner error: timeout"), 1⟩ := by
  obtain ⟨h1, h2, h3⟩ := runReq_inv es
  refine ⟨?_, ?_, by decide⟩
  · rw [h3]
    split <;> omega
  · intro hs
    rw [hs] at h1 h2
    simp only [Bool.not_true] at h1 h2
    refine ⟨h1, h2, ?_⟩
    intro more
    show (es ++ more).foldl stepReq initReq = runReq es
    rw [List.foldl_append]
    exact foldl_settled_fixed more (runReq es) (runReq_inv es) hs

/-- Witness for C4: once a `qrResult` message has settled the request, a
late second response leaves the request state untouched. -/
theorem C4_worker_request_settles_once_witness :
    runReq ([WEvent.message "qrResult" (some "data")] ++
        [WEvent.message "qrResult" (some "late")]) =
      runReq [WEvent.message "qrResult" (some "data")] :=
  ((C4_worker_request_settles_once [WEvent.message "qrResult" (some "data")]).2.1
    (by decide)).2.2 [WEvent.message "qrResult" (some "late")]

/-- C8: a `qrResult` message with `null` data settles the request as the
`No QR code found` rejection (never as a resolution); any message of a
different type is ignored; the default error handler suppresses logging
exactly for the not-found signal; and in the scan loop that rejection
reaches the error callback, not the decode callback. -/
theorem C8_null_result_is_not_found :
    stepReq initReq (.message "qrResult" none) =
      ⟨false, false, some (.rejected NO_QR_CODE_FOUND), 1⟩ ∧
    (∀ (s : ReqState) (t : String) (d : Option String), t ≠ "qrResult" →
      stepReq s (.message t d) = s) ∧
    (∀ e : String, _onDecodeError e = none ↔ e = NO_QR_CODE_FOUND) ∧
    scanFrameStep true false false (.error NO_QR_CODE_FOUND) =
      ⟨none, some NO_QR_CODE_FOUND, false, true⟩ := by
  refine ⟨by decide, ?_, ?_, by decide⟩
  · intro s t d h
    have hne : (t != "qrResult") = true := by
      simp [bne_iff_ne, h]
    simp [stepReq, onMessage, hne]
  · intro e
    simp only [_onDecodeError, beq_iff_eq]
    split <;> simp_all

/-- Witness for C8: a message of a foreign type leaves a fresh request
untouched. -/
theorem C8_null_result_is_not_found_witness :
    stepReq initReq (.message "other" none) = initReq :=
  C8_null_result_is_not_found.2.1 initReq "other" none (by decide)

/-- C5: when a scan region was supplied and `alsoTryWithoutScanRegion`
holds, a failed decode is retried exactly once with no region and that
second outcome is what propagates; with the retry disallowed, or with no
region supplied, the failure propagates immediately and only one decode
is attempted. -/
theorem C5_retry_without_region
    (decode : Option ScanRegionJs → Except String String) (r : ScanRegionJs) :
    (∀ e : String, decode (some r) = .error e →
      scanImageFlow decode (some r) true = (decode none, [some r, none])) ∧
    (∀ e : String, decode (some r) = .error e →
      scanImageFlow decode (some r) false = (.error e, [some r])) ∧
    (∀ v : String, decode (some r) = .ok v →
      ∀ b : Bool, scanImageFlow decode (some r) b = (.ok v, [some r])) ∧
    (∀ b : Bool, scanImageFlow decode none b = (decode none, [none])) := by
  refine ⟨?_, ?_, ?_, ?_⟩
  · intro e h
    cases h2 : decode none <;> simp [scanImageFlow, h, h2]
  · intro e h
    simp [scanImageFlow, h]
  · intro v h b
    simp [scanImageFlow, h]
  · intro b
    cases h : decode none <;> simp [scanImageFlow, h]

/-- Witness for C5: a decoder that fails on any region and succeeds on the
full frame makes a region-constrained scan succeed through exactly one
region-free retry. -/
theorem C5_retry_without_region_witness :
    scanImageFlow
      (fun reg => match reg with
        | some _ => .error NO_QR_CODE_FOUND
        | none => .ok "payload")
      (some ⟨none, none, none, none, none, none⟩) true =
      (.ok "payload", [some ⟨none, none, none, none, none, none⟩, none]) :=
  (C5_retry_without_region
    (fun reg => match reg with
      | some _ => .error NO_QR_CODE_FOUND
      | none => .ok "payload")
    ⟨none, none, none, none, none, none⟩).1 NO_QR_CODE_FOUND rfl

/-- C9 as stated is false: when the active flag has gone false before an
in-flight decode settles successfully, `_scanFrame`'s callback still
invokes the decode callback with the payload (the `!this._active` early
return exists only in the error path). -/
theorem C9_counterexample :
    (scanFrameStep false false false (.ok "payload")).decodeCb = some "payload" := by
  decide

/-- C9 amended: once the active flag is false, a decode settling with a
failure invokes neither callback, replaces no engine and schedules no
next iteration; a decode settling successfully still invokes the decode
callback with its payload, but schedules no next iteration. -/
theorem C9_inactive_decode_effects (vp ve : Bool) (e r : String) :
    scanFrameStep false vp ve (.error e) = ⟨none, none, false, false⟩ ∧
    scanFrameStep false vp ve (.ok r) = ⟨some r, none, false, false⟩ := by
  constructor
  · simp [scanFrameStep]
  · simp [scanFrameStep, scanFrameSchedules]

/-- C10: in `_drawToCanvas`, region fields equal to 0 behave like absent
fields — a 0 width or height falls back to the full source dimension and
a 0 downscale target falls back to the region dimension — so with
resizing allowed and a positive source, the decode buffer is never
zero-sized. -/
theorem C10_zero_region_like_absent (imgW imgH cw ch : Nat)
    (r : ScanRegionJs) (d : Bool) :
    (r.width = some 0 →
      (_drawToCanvas imgW imgH (some r) cw ch d).srcW = imgW) ∧
    (r.height = some 0 →
      (_drawToCanvas imgW imgH (some r) cw ch d).srcH = imgH) ∧
    (r.downScaledWidth = some 0 →
      (_drawToCanvas imgW imgH (some r) cw ch false).canvasW =
        (_drawToCanvas imgW imgH (some r) cw ch false).srcW) ∧
    (r.downScaledHeight = some 0 →
      (_drawToCanvas imgW imgH (some r) cw ch false).canvasH =
        (_drawToCanvas imgW imgH (some r) cw ch false).srcH) ∧
    (0 < imgW → 0 < imgH →
      0 < (_drawToCanvas imgW imgH (some r) cw ch false).canvasW ∧
      0 < (_drawToCanvas imgW imgH (some r) cw ch false).canvasH) := by
  obtain ⟨x, y, w, h, dw, dh⟩ := r
  refine ⟨?_, ?_, ?_, ?_, ?_⟩
  · intro hw
    simp only at hw
    subst hw
    simp [_drawToCanvas, truthyNum]
  · intro hh
    simp only at hh
    subst hh
    simp [_drawToCanvas, truthyNum]
  · intro hdw
    simp only at hdw
    subst hdw
    simp [_drawToCanvas, truthyNum]
  · intro hdh
    simp only at hdh
    subst hdh
    simp [_drawToCanvas, truthyNum]
  · intro h1 h2
    constructor
    · simp only [_drawToCanvas]
      cases dw with
      | none =>
        cases w with
        | none => simpa [truthyNum] using h1
        | some n =>
          by_cases hn : n = 0
          · subst hn
            simpa [truthyNum] using h1
          · simp [truthyNum, hn]
            omega
      | some m =>
        by_cases hm : m = 0
        · subst hm
          cases w with
          | none => simpa [truthyNum] using h1
          | some n =>
            by_cases hn : n = 0
            · subst hn
              simpa [truthyNum] using h1
            · simp [truthyNum, hn]
              omega
        · simp [truthyNum, hm]
          omega
    · simp only [_drawToCanvas]
      cases dh with
      | none =>
        cases h with
        | none => simpa [truthyNum] using h2
        | some n =>
          by_cases hn : n = 0
          · subst hn
            simpa [truthyNum] using h2
          · simp [truthyNum, hn]
            omega
      | some m =>
        by_cases hm : m = 0
        · subst hm
          cases h with
          | none => simpa [truthyNum] using h2
          | some n =>
            by_cases hn : n = 0
            · subst hn
              simpa [truthyNum] using h2
            · simp [truthyNum, hn]
              omega
        · simp [truthyNum, hm]
          omega

/-- Witness for C10: a region whose width, height and downscale targets
are all 0 on a 640×480 source rasterizes the full frame into a 640×480
buffer. -/
theorem C10_zero_region_like_absent_witness :
    (_drawToCanvas 640 480 (some ⟨none, none, some 0, some 0, some 0, some 0⟩)
        17 23 false).srcW = 640 ∧
    0 < (_drawToCanvas 640 480 (some ⟨none, none, some 0, some 0, some 0, some 0⟩)
        17 23 false).canvasW := by
  constructor
  · exact (C10_zero_region_like_absent 640 480 17 23
      ⟨none, none, some 0, some 0, some 0, some 0⟩ false).1 rfl
  · exact ((C10_zero_region_like_absent 640 480 17 23
      ⟨none, none, some 0, some 0, some 0, some 0⟩ false).2.2.2.2
      (by decide) (by decide)).1

/-- C2: pausing an active scanner with `immediate = true` releases the
capture stream before the suspension point and resolves `true`; with
`immediate = false` the release is deferred, a `start()` inside the grace
window keeps the stream attached through resume and makes the pending
pause resolve `false` without releasing, and without a resume the
deferred phase releases the stream and resolves `true` — the boolean
always reports whether the stream was released. -/
theorem C2_pause_grace_window (s : ScannerState) (n : Nat) (tr : Bool)
    (ha : s.active = true) (hd : s.destroyed = false) (hs : s.stream = some n) :
    pauseSync s true =
      ({ s with paused := true, videoPlaying := false, stream := none }, some true) ∧
    pauseSync s false = ({ s with paused := true, videoPlaying := false }, none) ∧
    start { s with paused := true, videoPlaying := false } false none tr =
      ({ s with paused := false, videoPlaying := true, active := true }, .ok ()) ∧
    pauseDeferred { s with paused := false, videoPlaying := true, active := true } =
      ({ s with paused := false, videoPlaying := true, active := true }, false) ∧
    pauseDeferred { s with paused := true, videoPlaying := false } =
      ({ s with paused := true, videoPlaying := false, stream := none }, true) := by
  obtain ⟨ac, pa, fl, de, st, vp, mi, tc, li, pc⟩ := s
  simp only at ha hd hs
  subst ha
  subst hd
  subst hs
  refine ⟨?_, ?_, ?_, ?_, ?_⟩ <;>
    simp [pauseSync, stopStreamOnVideo, start, pauseDeferred]

/-- Witness for C2: an immediate pause of a concrete active scanner
releases its stream synchronously and resolves `true`. -/
theorem C2_pause_grace_window_witness :
    pauseSync sampleActive true =
      ({ sampleActive with paused := true, videoPlaying := false, stream := none },
        some true) :=
  (C2_pause_grace_window sampleActive 1 false rfl rfl rfl).1

/-- C3 as stated is false: `setCamera` on a destroyed scanner is not a
no-op — it still records the new camera preference (it only skips the
restart). -/
theorem C3_counterexample :
    setCamera (destroySettled sampleActive) "alternate-camera" false none false ≠
      destroySettled sampleActive := by
  decide

/-- C3 amended: the destroyed state is terminal — after `destroy()` the
scanner is destroyed, inactive, paused, flash off and stream released,
and every public operation leaves the state unchanged (so no transition
out of destroyed, no stream acquisition, no playback, hence no further
scan-loop callbacks), except that `setCamera` still records a changed
camera preference while performing no restart. -/
theorem C3_destroyed_terminal (s : ScannerState) (hd : s.destroyed = true)
    (ha : s.active = false) (hp : s.paused = true) (hf : s.flashOn = false) :
    (∀ (hidden : Bool) (acq : Option (Nat × String)) (tr : Bool),
      start s hidden acq tr = (s, .ok ())) ∧
    (∀ b : Bool, pauseSync s b = (s, some true)) ∧
    (∀ ht : Bool, turnFlashOn s ht = (s, true)) ∧
    (∀ (hidden : Bool) (acq : Option (Nat × String)) (tr : Bool),
      turnFlashOff s hidden acq tr = s) ∧
    (∀ (ht hidden : Bool) (acq : Option (Nat × String)) (tr : Bool),
      toggleFlash s ht hidden acq tr = s) ∧
    (∀ (cam : String) (hidden : Bool) (acq : Option (Nat × String)) (tr : Bool),
      setCamera s cam hidden acq tr =
        (if cam == s.preferredCamera then s else { s with preferredCamera := cam })) ∧
    (∀ t : ScannerState,
      (destroySettled t).destroyed = true ∧ (destroySettled t).active = false ∧
      (destroySettled t).paused = true ∧ (destroySettled t).flashOn = false ∧
      (destroySettled t).stream = none) := by
  obtain ⟨ac, pa, fl, de, st, vp, mi, tc, li, pc⟩ := s
  simp only at hd ha hp hf
  subst hd
  subst ha
  subst hp
  subst hf
  refine ⟨?_, ?_, ?_, ?_, ?_, ?_, ?_⟩
  · intro hidden acq tr
    simp [start]
  · intro b
    simp [pauseSync]
  · intro ht
    simp [turnFlashOn]
  · intro hidden acq tr
    simp [turnFlashOff]
  · intro ht hidden acq tr
    simp [toggleFlash, turnFlashOn]
  · intro cam hidden acq tr
    simp only [setCamera]
    split
    · rfl
    · simp [_restartVideoStream, pauseSync]
  · intro t
    obtain ⟨ac', pa', fl', de', st', vp', mi', to', li', pc'⟩ := t
    cases ac' <;> cases st' <;>
      simp [destroySettled, destroy, stop, pauseSync, pauseDeferred, stopStreamOnVideo]

/-- Witness for C3 (amended): `start` on the settled destroyed state of a
concrete scanner returns it unchanged and resolves. -/
theorem C3_destroyed_terminal_witness :
    start (destroySettled sampleActive) false (some (5, "user")) true =
      (destroySettled sampleActive, .ok ()) :=
  (C3_destroyed_terminal (destroySettled sampleActive) rfl rfl rfl rfl).1
    false (some (5, "user")) true

/-- C7: `turnFlashOff` while the flash is on clears the flag and forces a
stream restart — the immediate pause inside the restart stops and
detaches the current stream's tracks, and when the scanner was active and
unpaused a fresh stream is acquired with the flash flag off (when it was
paused, no new stream is acquired) — whereas `turnFlashOn` on an attached
stream supporting torch applies the constraint to the existing stream
without replacing it. -/
theorem C7_flash_off_restarts_stream (s : ScannerState) (n nid : Nat) (f : String)
    (tr : Bool) (hf : s.flashOn = true) (ha : s.active = true)
    (hd : s.destroyed = false) (hs : s.stream = some n) :
    pauseSync { s with flashOn := false } true =
      ({ s with flashOn := false, paused := true, videoPlaying := false, stream := none },
        some true) ∧
    (s.paused = false →
      turnFlashOff s false (some (nid, f)) tr =
        { s with flashOn := false, paused := false, videoPlaying := true,
                 stream := some nid, mirrored := f == "user" }) ∧
    (s.paused = true →
      turnFlashOff s false (some (nid, f)) tr =
        { s with flashOn := false, paused := true, videoPlaying := false,
                 stream := none }) ∧
    (∀ t : ScannerState, t.flashOn = false → t.destroyed = false →
      t.active = true → t.paused = false →
      (turnFlashOn t true).1 = { t with flashOn := true, torchApplied := true }) := by
  obtain ⟨ac, pa, fl, de, st, vp, mi, tc, li, pc⟩ := s
  simp only at hf ha hd hs
  subst hf
  subst ha
  subst hd
  subst hs
  refine ⟨?_, ?_, ?_, ?_⟩
  · simp [pauseSync, stopStreamOnVideo]
  · intro hp
    simp only at hp
    subst hp
    simp [turnFlashOff, _restartVideoStream, pauseSync, stopStreamOnVideo, start]
  · intro hp
    simp only at hp
    subst hp
    simp [turnFlashOff, _restartVideoStream, pauseSync, stopStreamOnVideo]
  · intro t h1 h2 h3 h4
    obtain ⟨ac', pa', fl', de', st', vp', mi', to', li', pc'⟩ := t
    simp only at h1 h2 h3 h4
    subst h1
    subst h2
    subst h3
    subst h4
    simp [turnFlashOn]

/-- Witness for C7: turning the flash off on a concrete active scanner
with the flash on replaces stream 1 by a freshly acquired stream 2 with
the flash flag cleared. -/
theorem C7_flash_off_restarts_stream_witness :
    turnFlashOff sampleFlashOn false (some (2, "environment")) true =
      ⟨true, false, false, false, some 2, true, false, true, true, "environment"⟩ :=
  (C7_flash_off_restarts_stream sampleFlashOn 1 2 "environment" true
    rfl rfl rfl rfl).2.1 rfl
